import Mathlib

/-!
Shallow embedding of the hazard-report decision logic implemented in
`backend/api/services/citizen_reporter.py`:

* `calculate_priority_score` — priority scoring of one report,
* `find_nearby_reports`     — proximity search for corroborating reports,
* `validate_report_location` — service-area bounding-box check,
* `get_hazard_hotspots`     — grid-based hotspot clustering.

Python floats are modelled as rationals (`ℚ`); the Python built-in `round`
(round-half-to-even) is modelled by `rhe`.  The geodesic
distance comes from the external `geopy` library, so it is passed to
`find_nearby_reports` as a function argument; the `try/except: continue`
around the distance call in the source is modelled by letting that function
return `none` for a pair of coordinates it cannot handle.
-/

/-- Round-half-to-even on a rational: the semantics of the Python built-in
`round(x)` — nearest integer, ties going to the even neighbour. -/
def rhe (q : ℚ) : ℤ :=
  if q - ⌊q⌋ < 1/2 then ⌊q⌋
  else if (1 : ℚ)/2 < q - ⌊q⌋ then ⌊q⌋ + 1
  else if ⌊q⌋ % 2 = 0 then ⌊q⌋ else ⌊q⌋ + 1

/-- Python `round(x, 2)`: round to two decimal places, ties to even. -/
def round2 (q : ℚ) : ℚ := (rhe (q * 100) : ℚ) / 100

/-- A stored hazard report: the fields of the `HazardReport` model that the
core logic reads.  `timestamp` is a time in hours on an arbitrary linear
clock (the code only ever compares it with `now - window`). -/
structure Report where
  id : String
  latitude : ℚ
  longitude : ℚ
  hazard_type : String
  severity : ℤ
  timestamp : ℚ
deriving DecidableEq

/-- One entry of the `nearby` list built by `find_nearby_reports`: the dict
with keys id, distance_km, hazard_type and severity built in the loop. -/
structure Corroborator where
  id : String
  distance_km : ℚ
  hazard_type : String
  severity : ℤ
deriving DecidableEq

/-- `HazardReportManager.hazard_weights`, a dict from hazard type to base
weight; modelled as the lookup function of that dict. -/
def hazard_weights (h : String) : Option ℚ :=
  if h = "tsunami" then some 5.0
  else if h = "storm_surge" then some 4.5
  else if h = "cyclone" then some 4.5
  else if h = "coastal_flooding" then some 3.5
  else if h = "high_waves" then some 3.0
  else if h = "rip_current" then some 3.0
  else if h = "coastal_erosion" then some 2.0
  else if h = "other" then some 1.0
  else none

/-- `HazardReportManager.calculate_priority_score`.  The report argument is
split into the two fields the method reads (`hazard_type`, `severity`). -/
def calculate_priority_score (hazard_type : String) (severity : ℤ)
    (nearby_reports : List Corroborator) : ℚ :=
  let base_score := (hazard_weights hazard_type).getD 1.0
  let severity_multiplier := (severity : ℚ) / 5.0
  let cluster_bonus := min ((nearby_reports.length : ℚ) * 0.2) 2.0
  let time_factor : ℚ := 1.0
  round2 (base_score * severity_multiplier * (1 + cluster_bonus) * time_factor)

/-- `HazardReportManager.find_nearby_reports`.  The DB query keeps reports
with `timestamp >= now - 24h`; `dist` stands for `geodesic(...).kilometers`
from the external `geopy` library, returning `none` where the Python code
would catch an exception and `continue`. -/
def find_nearby_reports (dist : ℚ × ℚ → ℚ × ℚ → Option ℚ) (reports : List Report)
    (now lat lon radius_km : ℚ) : List Corroborator :=
  let all_reports := reports.filter (fun r => decide (now - 24 ≤ r.timestamp))
  all_reports.filterMap (fun r =>
    match dist (lat, lon) (r.latitude, r.longitude) with
    | none => none
    | some d =>
      if d ≤ radius_km then some ⟨r.id, round2 d, r.hazard_type, r.severity⟩
      else none)

/-- `HazardReportManager.validate_report_location`: the Indian-coastline
bounding box check `min_lat <= lat <= max_lat and min_lon <= lon <= max_lon`. -/
def validate_report_location (lat lon : ℚ) : Bool :=
  decide ((8.0 : ℚ) ≤ lat) && decide (lat ≤ (23.5 : ℚ)) &&
    decide ((68.0 : ℚ) ≤ lon) && decide (lon ≤ (97.5 : ℚ))

/-- `grid_size = 0.1` in `get_hazard_hotspots`. -/
def grid_size : ℚ := 0.1

/-- The `grid_key` computed for a report in `get_hazard_hotspots`:
`(round(lat/grid_size)*grid_size, round(lon/grid_size)*grid_size)` with
Python `round` (half-to-even). -/
def gridKey (lat lon : ℚ) : ℚ × ℚ :=
  ((rhe (lat / grid_size) : ℚ) * grid_size, (rhe (lon / grid_size) : ℚ) * grid_size)

/-- The per-cell aggregate record built by the clustering loop of
`get_hazard_hotspots`. -/
structure Cluster where
  center_lat : ℚ
  center_lon : ℚ
  reports : List String
  total_severity : ℤ
  hazard_types : List String
deriving DecidableEq

/-- Python `set.add` on a set modelled as a duplicate-free list in insertion
order. -/
def setAdd (s : List String) (x : String) : List String :=
  if x ∈ s then s else s ++ [x]

/-- One iteration of the clustering loop of `get_hazard_hotspots`: insert
report `r` into the cell keyed `gridKey r.latitude r.longitude` of the
association list `clusters` (Python dicts preserve insertion order, so a
fresh cell is appended at the end). -/
def updateCluster (r : Report) : List ((ℚ × ℚ) × Cluster) → List ((ℚ × ℚ) × Cluster)
  | [] =>
    [(gridKey r.latitude r.longitude,
      ⟨(gridKey r.latitude r.longitude).1, (gridKey r.latitude r.longitude).2,
        [r.id], r.severity, [r.hazard_type]⟩)]
  | (k, c) :: rest =>
    if k = gridKey r.latitude r.longitude then
      (k, ⟨c.center_lat, c.center_lon, c.reports ++ [r.id],
            c.total_severity + r.severity, setAdd c.hazard_types r.hazard_type⟩) :: rest
    else (k, c) :: updateCluster r rest

/-- The accumulation pass of `get_hazard_hotspots`: fold the recent reports
into the (initially empty) cell map. -/
def buildClusters (reports : List Report) : List ((ℚ × ℚ) × Cluster) :=
  reports.foldl (fun cs r => updateCluster r cs) []

/-- The recency filter of `get_hazard_hotspots`:
`timestamp >= now - time_range` hours. -/
def recentReports (reports : List Report) (now time_range : ℚ) : List Report :=
  reports.filter (fun r => decide (now - time_range ≤ r.timestamp))

/-- One element of the hotspot list returned by `get_hazard_hotspots`. -/
structure Hotspot where
  latitude : ℚ
  longitude : ℚ
  report_count : ℕ
  average_severity : ℚ
  hazard_types : List String
  threat_level : String
deriving DecidableEq

/-- The filter-and-finalize pass of `get_hazard_hotspots`: keep cells with at
least `min_reports` members, compute the average severity (guarded against
an empty member list exactly as the source guards it) and the threat level.  Note the
source compares the UNROUNDED average with 3.5 and rounds only the emitted
`average_severity` field. -/
def finalizeHotspots (min_reports : ℕ) (clusters : List ((ℚ × ℚ) × Cluster)) :
    List Hotspot :=
  clusters.filterMap (fun kc =>
    if min_reports ≤ kc.2.reports.length then
      some ⟨kc.2.center_lat, kc.2.center_lon, kc.2.reports.length,
        round2 (if kc.2.reports ≠ [] then (kc.2.total_severity : ℚ) / kc.2.reports.length else 0),
        kc.2.hazard_types,
        if (3.5 : ℚ) ≤
            (if kc.2.reports ≠ [] then (kc.2.total_severity : ℚ) / kc.2.reports.length else 0)
          then "high" else "medium"⟩
    else none)

/-- The comparator of the final `hotspots.sort(key=count*avg, reverse=True)`:
a Python stable descending sort places `a` before `b` when
`key b <= key a`. -/
def hotspotLE (a b : Hotspot) : Bool :=
  decide ((b.report_count : ℚ) * b.average_severity ≤ (a.report_count : ℚ) * a.average_severity)

/-- `get_hazard_hotspots` (its `"hotspots"` result list): filter to the time
window, accumulate grid cells, finalize cells meeting `min_reports`, and
stable-sort descending by `report_count * average_severity`. -/
def get_hazard_hotspots (reports : List Report) (now time_range : ℚ)
    (min_reports : ℕ) : List Hotspot :=
  (finalizeHotspots min_reports (buildClusters (recentReports reports now time_range))).mergeSort
    hotspotLE

/-- The hazard-weight table exactly as the spec lists it (tsunami 5.0,
storm_surge 4.5, cyclone 4.5, coastal_flooding 3.5, high_waves 3.0,
rip_current 3.0, coastal_erosion 2.0, other 1.0, anything else 1.0). -/
def hazardWeightSpec (h : String) : ℚ :=
  if h = "tsunami" then 5.0
  else if h = "storm_surge" then 4.5
  else if h = "cyclone" then 4.5
  else if h = "coastal_flooding" then 3.5
  else if h = "high_waves" then 3.0
  else if h = "rip_current" then 3.0
  else if h = "coastal_erosion" then 2.0
  else if h = "other" then 1.0
  else 1.0

/-- Round-half-away-from-zero: the rounding rule the spec claims the
clusterer uses. -/
def roundHalfAway (q : ℚ) : ℤ :=
  if 0 ≤ q then ⌊q + 1/2⌋ else -⌊-q + 1/2⌋

/-- The grid-cell key as the spec describes it: round-half-away-from-zero on
`coordinate / resolution`, multiplied back by the resolution. -/
def gridKeySpec (lat lon : ℚ) : ℚ × ℚ :=
  ((roundHalfAway (lat / grid_size) : ℚ) * grid_size,
   (roundHalfAway (lon / grid_size) : ℚ) * grid_size)

/-- Stand-in for the external geodesic distance in concrete runs: kilometers
as 111 times the latitude difference, which is the approximate great-circle
distance for points north of the query point on a common meridian. -/
def distToy (p q : ℚ × ℚ) : Option ℚ := some ((q.1 - p.1) * 111)

/-- A report roughly 10 km north of the origin. -/
def rFar : Report := ⟨"far", 0.09, 0, "high_waves", 3, 0⟩

/-- A report roughly 1 km north of the origin. -/
def rNear : Report := ⟨"near", 0.009, 0, "high_waves", 3, 0⟩

/-- A sample report for concrete instantiations. -/
def rSample : Report := ⟨"a", 13.08, 80.27, "cyclone", 4, 0⟩

/-- All member report ids of a cell map, cell by cell. -/
def clusterIds (cs : List ((ℚ × ℚ) × Cluster)) : List String :=
  (cs.map (fun kc => kc.2.reports)).flatten

/-- A severity-4 cyclone report at (13.08, 80.27). -/
def rSev4 : Report := ⟨"p", 13.08, 80.27, "cyclone", 4, 0⟩

/-- A severity-3 cyclone report at (13.08, 80.27). -/
def rSev3 : Report := ⟨"q", 13.08, 80.27, "cyclone", 3, 0⟩

/-- 101 co-located reports totalling severity 353: average 353/101 ≈ 3.495. -/
def bigReports : List Report := List.replicate 50 rSev4 ++ List.replicate 51 rSev3

/-! ### Basic lemmas about the rounding model -/

theorem rhe_mono {q r : ℚ} (h : q ≤ r) : rhe q ≤ rhe r := by
  have hfl : ⌊q⌋ ≤ ⌊r⌋ := Int.floor_le_floor h
  rcases eq_or_lt_of_le hfl with heq | hlt
  · unfold rhe
    rw [← heq]
    have hq : (⌊q⌋ : ℚ) ≤ q := Int.floor_le q
    split_ifs <;> first | omega | (exfalso; linarith)
  · have h1 : rhe q ≤ ⌊q⌋ + 1 := by
      unfold rhe; split_ifs <;> omega
    have h2 : ⌊r⌋ ≤ rhe r := by
      unfold rhe; split_ifs <;> omega
    omega

theorem round2_mono {q r : ℚ} (h : q ≤ r) : round2 q ≤ round2 r := by
  unfold round2
  have := rhe_mono (mul_le_mul_of_nonneg_right h (by norm_num : (0:ℚ) ≤ 100))
  have hc : ((rhe (q * 100) : ℚ)) ≤ ((rhe (r * 100) : ℚ)) := by exact_mod_cast this
  linarith

theorem hazard_weights_getD_nonneg (h : String) :
    (0 : ℚ) ≤ (hazard_weights h).getD 1.0 := by
  unfold hazard_weights
  split_ifs <;> norm_num

/-! ### Claim theorems -/

/-- Claim C1: for every hazard type, severity and corroborator list, the
priority score equals `round(base * (severity/5) * (1 + min(0.2*|c|, 2)), 2)`
where `base` is the fixed hazard-weight table value with fallback 1.0 for
unknown hazard types; the scorer is total and never rejects a report. -/
theorem priority_score_formula (h : String) (s : ℤ) (c : List Corroborator) :
    calculate_priority_score h s c =
      round2 (hazardWeightSpec h * ((s : ℚ) / 5) *
        (1 + min ((c.length : ℚ) * 0.2) 2)) := by
  unfold calculate_priority_score hazardWeightSpec hazard_weights
  split_ifs <;> norm_num

/-- Claim C5: `validate_report_location` accepts exactly the coordinates in
the closed box `[8, 23.5] × [68, 97.5]` (inclusive bounds); it is a pure
boolean predicate. -/
theorem validate_report_location_iff (lat lon : ℚ) :
    validate_report_location lat lon = true ↔
      (8 ≤ lat ∧ lat ≤ 23.5 ∧ 68 ≤ lon ∧ lon ≤ 97.5) := by
  unfold validate_report_location
  simp [and_assoc]
  norm_num

/-- Claim C7: for fixed hazard type and corroborator list, the priority score
is monotonically non-decreasing in severity. -/
theorem priority_score_severity_mono (h : String) (c : List Corroborator)
    {s₁ s₂ : ℤ} (hs : s₁ ≤ s₂) :
    calculate_priority_score h s₁ c ≤ calculate_priority_score h s₂ c := by
  simp only [calculate_priority_score]
  apply round2_mono
  have hb := hazard_weights_getD_nonneg h
  have hk : (0 : ℚ) ≤ 1 + min ((c.length : ℚ) * 0.2) 2.0 := by
    have h0 : (0 : ℚ) ≤ (c.length : ℚ) * 0.2 := by positivity
    have := le_min h0 (by norm_num : (0 : ℚ) ≤ 2.0)
    linarith
  have hdiv : (s₁ : ℚ) / 5.0 ≤ (s₂ : ℚ) / 5.0 := by
    have hc : (s₁ : ℚ) ≤ (s₂ : ℚ) := by exact_mod_cast hs
    linarith
  have hone : ∀ x : ℚ, x * 1.0 = x := fun x => by norm_num
  rw [hone, hone]
  exact mul_le_mul_of_nonneg_right (mul_le_mul_of_nonneg_left hdiv hb) hk

theorem priority_score_severity_mono_witness :
    (2 : ℤ) ≤ 5 ∧
      calculate_priority_score "tsunami" 2 [] ≤ calculate_priority_score "tsunami" 5 [] :=
  ⟨by decide, priority_score_severity_mono "tsunami" [] (by decide)⟩

/-- The cluster bonus saturates: ten or more corroborators give the maximal
bonus 2.0. -/
theorem cluster_bonus_saturates {n : ℕ} (hn : 10 ≤ n) :
    min ((n : ℚ) * 0.2) 2.0 = 2.0 := by
  apply min_eq_right
  have : (10 : ℚ) ≤ (n : ℚ) := by exact_mod_cast hn
  nlinarith

/-- Claim C8: for fixed hazard type and non-negative severity, adding one
corroborator never decreases the priority score; the cluster bonus saturates
at 10 corroborators (bonus(10) = bonus(100) = 2.0), so the score is constant
for any two corroborator lists of length at least 10. -/
theorem priority_score_corroboration_mono (h : String) {s : ℤ} (hs : 0 ≤ s)
    (c : List Corroborator) (x : Corroborator) :
    calculate_priority_score h s c ≤ calculate_priority_score h s (x :: c) ∧
    (∀ c₁ c₂ : List Corroborator, 10 ≤ c₁.length → 10 ≤ c₂.length →
      calculate_priority_score h s c₁ = calculate_priority_score h s c₂) ∧
    min ((10 : ℚ) * 0.2) 2 = 2 ∧ min ((100 : ℚ) * 0.2) 2 = 2 := by
  refine ⟨?_, ?_, by norm_num, by norm_num⟩
  · simp only [calculate_priority_score]
    apply round2_mono
    have hb := hazard_weights_getD_nonneg h
    have hsq : (0 : ℚ) ≤ (s : ℚ) / 5.0 := by
      have : (0 : ℚ) ≤ (s : ℚ) := by exact_mod_cast hs
      positivity
    have hbonus : min ((c.length : ℚ) * 0.2) 2.0 ≤
        min (((x :: c).length : ℚ) * 0.2) 2.0 := by
      apply min_le_min _ le_rfl
      have : (c.length : ℚ) ≤ ((x :: c).length : ℚ) := by
        simp [List.length_cons]
      nlinarith
    have hone : ∀ x : ℚ, x * 1.0 = x := fun x => by norm_num
    rw [hone, hone]
    have hmul : (0 : ℚ) ≤ (hazard_weights h).getD 1.0 * ((s : ℚ) / 5.0) :=
      mul_nonneg hb hsq
    exact mul_le_mul_of_nonneg_left (by linarith) hmul
  · intro c₁ c₂ h₁ h₂
    simp only [calculate_priority_score]
    rw [cluster_bonus_saturates h₁, cluster_bonus_saturates h₂]

theorem priority_score_corroboration_mono_witness :
    (0 : ℤ) ≤ 4 ∧
      calculate_priority_score "cyclone" 4 [] ≤
        calculate_priority_score "cyclone" 4 [⟨"b", 1, "cyclone", 4⟩] :=
  ⟨by decide,
    (priority_score_corroboration_mono "cyclone" (by decide) [] ⟨"b", 1, "cyclone", 4⟩).1⟩

/-- Claim C3 (amended): the cell key is `round(coordinate/resolution)` times
the resolution with the Python `round`, i.e. round-half-to-EVEN, applied
identically to latitude and longitude; two reports share a cell iff their
rounded coordinates agree, and `(13.08, 80.27)` maps to `(13.1, 80.3)`. -/
theorem grid_cell_key_rule (lat₁ lon₁ lat₂ lon₂ : ℚ) :
    (gridKey lat₁ lon₁ = gridKey lat₂ lon₂ ↔
      (rhe (lat₁ / grid_size) = rhe (lat₂ / grid_size) ∧
        rhe (lon₁ / grid_size) = rhe (lon₂ / grid_size))) ∧
    gridKey 13.08 80.27 = (13.1, 80.3) := by
  constructor
  · unfold gridKey
    rw [Prod.mk.injEq]
    have hg : (grid_size : ℚ) ≠ 0 := by norm_num [grid_size]
    constructor
    · rintro ⟨h1, h2⟩
      refine ⟨?_, ?_⟩
      · exact_mod_cast mul_right_cancel₀ hg h1
      · exact_mod_cast mul_right_cancel₀ hg h2
    · rintro ⟨h1, h2⟩
      rw [h1, h2]
      exact ⟨rfl, rfl⟩
  · norm_num [gridKey, grid_size, rhe, Prod.mk.injEq]

/-- Claim C3 counterexample: at latitude 13.05 the Python `round` used by the code
(half-to-even: 130.5 rounds to the even 130) yields cell center 13.0, while
the round-half-away-from-zero rule named by the spec yields 13.1. -/
theorem grid_cell_key_counterexample :
    gridKey 13.05 80.27 ≠ gridKeySpec 13.05 80.27 ∧
    gridKey 13.05 80.27 = (13.0, 80.3) ∧
    gridKeySpec 13.05 80.27 = (13.1, 80.3) := by
  have h1 : gridKey 13.05 80.27 = (13.0, 80.3) := by
    norm_num [gridKey, grid_size, rhe, Prod.mk.injEq]
  have h2 : gridKeySpec 13.05 80.27 = (13.1, 80.3) := by
    norm_num [gridKeySpec, grid_size, roundHalfAway, Prod.mk.injEq]
  refine ⟨?_, h1, h2⟩
  rw [h1, h2]
  intro hcontra
  rw [Prod.mk.injEq] at hcontra
  norm_num at hcontra

/-- Claim C2 (amended): with a total distance function, `find_nearby_reports`
returns exactly the reports of the fixed 24-hour window whose distance to the
center is at most `radius_km`, each carrying `{id, distance rounded to 2
decimals, hazard_type, severity}`, in the ORIGINAL iteration order of the
input collection — the code never sorts by distance. -/
theorem find_nearby_characterization (distF : ℚ × ℚ → ℚ × ℚ → ℚ)
    (reports : List Report) (now lat lon radius_km : ℚ) :
    find_nearby_reports (fun a b => some (distF a b)) reports now lat lon radius_km =
      (reports.filter (fun r => decide (now - 24 ≤ r.timestamp) &&
          decide (distF (lat, lon) (r.latitude, r.longitude) ≤ radius_km))).map
        (fun r => ⟨r.id, round2 (distF (lat, lon) (r.latitude, r.longitude)),
          r.hazard_type, r.severity⟩) := by
  unfold find_nearby_reports
  induction reports with
  | nil => rfl
  | cons r rs ih =>
    simp only [List.filter_cons, List.filterMap_cons]
    by_cases h1 : now - 24 ≤ r.timestamp
    · by_cases h2 : distF (lat, lon) (r.latitude, r.longitude) ≤ radius_km
      · simpa [h1, h2, List.filterMap_cons] using ih
      · simpa [h1, h2, List.filterMap_cons] using ih
    · simpa [h1] using ih

/-- Claim C2 counterexample: querying around the origin with the farther
report first in the input collection, the returned distance list is
`[9.99, 1]` — the farther corroborator is listed first, so the output is NOT
ordered by ascending distance (the code keeps input iteration order). -/
theorem find_nearby_not_sorted :
    (find_nearby_reports distToy [rFar, rNear] 0 0 0 20).map Corroborator.distance_km =
      [9.99, 1] ∧ ¬ ((9.99 : ℚ) ≤ 1) := by
  constructor
  · norm_num [find_nearby_reports, distToy, rFar, rNear, List.filter_cons,
      List.filterMap_cons, round2, rhe]
    norm_num [Int.fract]
  · norm_num

/-- Claim C4 (amended): neither component signals an error on a contract
violation.  `calculate_priority_score` applies its formula to any severity,
in or out of range, and `find_nearby_reports` silently skips a report whose
distance computation fails (the `except: continue` in the source), leaving
the rest of the result unchanged. -/
theorem no_invalid_input_error (h : String) (s : ℤ) (c : List Corroborator)
    (dist : ℚ × ℚ → ℚ × ℚ → Option ℚ) (l₁ l₂ : List Report) (r : Report)
    (now lat lon radius_km : ℚ)
    (hfail : dist (lat, lon) (r.latitude, r.longitude) = none) :
    calculate_priority_score h s c =
      round2 ((hazard_weights h).getD 1.0 * ((s : ℚ) / 5.0) *
        (1 + min ((c.length : ℚ) * 0.2) 2.0) * 1.0) ∧
    find_nearby_reports dist (l₁ ++ r :: l₂) now lat lon radius_km =
      find_nearby_reports dist (l₁ ++ l₂) now lat lon radius_km := by
  constructor
  · rfl
  · unfold find_nearby_reports
    simp only [List.filter_append, List.filterMap_append, List.filter_cons]
    by_cases h1 : now - 24 ≤ r.timestamp
    · simp [h1, List.filterMap_cons, hfail]
    · simp [h1]

theorem no_invalid_input_error_witness :
    calculate_priority_score "tsunami" 7 [] =
      round2 ((hazard_weights "tsunami").getD 1.0 * (((7 : ℤ) : ℚ) / 5.0) *
        (1 + min (((List.length ([] : List Corroborator)) : ℚ) * 0.2) 2.0) * 1.0) ∧
    find_nearby_reports (fun _ _ => (none : Option ℚ)) ([] ++ rFar :: []) 0 0 0 5 =
      find_nearby_reports (fun _ _ => (none : Option ℚ)) ([] ++ []) 0 0 0 5 :=
  no_invalid_input_error "tsunami" 7 [] (fun _ _ => (none : Option ℚ)) [] [] rFar
    0 0 0 5 rfl

/-- Claim C4 counterexample: severity 7 is outside `[1, 5]`, yet the scorer
silently returns the score 7 (there is no `InvalidInputError` anywhere in the
code), and a report whose distance computation fails is silently dropped from
the nearby list rather than signalled as an error. -/
theorem no_invalid_input_error_counterexample :
    calculate_priority_score "tsunami" 7 [] = 7 ∧
    find_nearby_reports (fun _ _ => (none : Option ℚ)) [rFar] 0 0 0 5 = [] := by
  constructor
  · norm_num [calculate_priority_score, hazard_weights, round2, rhe]
  · norm_num [find_nearby_reports, rFar]

/-! ### Clustering invariants -/

theorem updateCluster_nonempty (r : Report) (cs : List ((ℚ × ℚ) × Cluster))
    (h : ∀ kc ∈ cs, kc.2.reports ≠ []) :
    ∀ kc ∈ updateCluster r cs, kc.2.reports ≠ [] := by
  induction cs with
  | nil =>
    intro kc hkc
    simp only [updateCluster, List.mem_singleton] at hkc
    subst hkc
    simp
  | cons hd tl ih =>
    obtain ⟨k, c⟩ := hd
    intro kc hkc
    simp only [updateCluster] at hkc
    split_ifs at hkc with hk
    · rcases List.mem_cons.mp hkc with hkc | hkc
      · subst hkc; simp
      · exact h kc (List.mem_cons_of_mem _ hkc)
    · rcases List.mem_cons.mp hkc with hkc | hkc
      · subst hkc; exact h (k, c) (List.mem_cons_self _ _)
      · exact ih (fun kc2 hkc2 => h kc2 (List.mem_cons_of_mem _ hkc2)) kc hkc

theorem foldl_clusters_nonempty (rs : List Report) (cs : List ((ℚ × ℚ) × Cluster))
    (h : ∀ kc ∈ cs, kc.2.reports ≠ []) :
    ∀ kc ∈ rs.foldl (fun acc r => updateCluster r acc) cs, kc.2.reports ≠ [] := by
  induction rs generalizing cs with
  | nil => simpa using h
  | cons r rs ih =>
    intro kc hkc
    exact ih (updateCluster r cs) (updateCluster_nonempty r cs h) kc hkc

/-- Claim C9: every grid cell ever created by the clustering loop holds at
least one member report, so the `average_severity` division can never divide
by zero, and every emitted hotspot (for any `min_reports`, including 0) has a
positive report count. -/
theorem cluster_average_never_divides_by_zero (reports : List Report)
    (now time_range : ℚ) (min_reports : ℕ) :
    (∀ kc ∈ buildClusters (recentReports reports now time_range),
      kc.2.reports ≠ []) ∧
    (∀ hsp ∈ get_hazard_hotspots reports now time_range min_reports,
      0 < hsp.report_count) := by
  have hne := foldl_clusters_nonempty (recentReports reports now time_range) []
    (by simp)
  refine ⟨fun kc hkc => hne kc (by simpa [buildClusters] using hkc), ?_⟩
  intro hsp hmem
  unfold get_hazard_hotspots at hmem
  have hperm := List.mergeSort_perm
    (finalizeHotspots min_reports (buildClusters (recentReports reports now time_range)))
    hotspotLE
  have hmem2 := hperm.mem_iff.mp hmem
  rw [finalizeHotspots, List.mem_filterMap] at hmem2
  obtain ⟨kc, hkc, hf⟩ := hmem2
  by_cases hlen : min_reports ≤ kc.2.reports.length
  · rw [if_pos hlen] at hf
    injection hf with hf
    have hr : kc.2.reports ≠ [] := hne kc (by simpa [buildClusters] using hkc)
    have : 0 < kc.2.reports.length := List.length_pos.mpr hr
    rw [← hf]
    exact this
  · rw [if_neg hlen] at hf
    exact absurd hf (by simp)

theorem buildClusters_sample :
    buildClusters (recentReports [rSample] 0 24) =
      [((13.1, 80.3), ⟨13.1, 80.3, ["a"], 4, ["cyclone"]⟩)] := by
  norm_num [buildClusters, recentReports, updateCluster, gridKey, grid_size, rSample,
    List.filter_cons, rhe, Prod.mk.injEq, Cluster.mk.injEq]

theorem cluster_average_never_divides_by_zero_witness :
    ((13.1, 80.3), (⟨13.1, 80.3, ["a"], 4, ["cyclone"]⟩ : Cluster)).2.reports ≠ [] :=
  (cluster_average_never_divides_by_zero [rSample] 0 24 3).1
    ((13.1, 80.3), ⟨13.1, 80.3, ["a"], 4, ["cyclone"]⟩)
    (by simp [buildClusters_sample])

theorem clusterIds_updateCluster (r : Report) (cs : List ((ℚ × ℚ) × Cluster)) :
    (clusterIds (updateCluster r cs)).Perm (clusterIds cs ++ [r.id]) := by
  induction cs with
  | nil => simp [clusterIds, updateCluster]
  | cons hd tl ih =>
    obtain ⟨k, c⟩ := hd
    simp only [updateCluster]
    split_ifs with hk
    · simp only [clusterIds, List.map_cons, List.flatten_cons]
      rw [List.append_assoc, List.append_assoc]
      exact List.Perm.append_left c.reports List.perm_append_comm
    · simp only [clusterIds, List.map_cons, List.flatten_cons]
      rw [List.append_assoc]
      exact List.Perm.append_left c.reports ih

theorem clusterIds_foldl (rs : List Report) (cs : List ((ℚ × ℚ) × Cluster)) :
    (clusterIds (rs.foldl (fun acc r => updateCluster r acc) cs)).Perm
      (clusterIds cs ++ rs.map Report.id) := by
  induction rs generalizing cs with
  | nil => simp
  | cons r rs ih =>
    simp only [List.foldl_cons, List.map_cons]
    have h1 := ih (updateCluster r cs)
    have h2 := (clusterIds_updateCluster r cs).append_right (rs.map Report.id)
    have h3 : (clusterIds cs ++ [r.id]) ++ rs.map Report.id =
        clusterIds cs ++ (r.id :: rs.map Report.id) := by
      rw [List.append_assoc]; rfl
    exact h1.trans (h3 ▸ h2)

theorem clusterIds_buildClusters (rs : List Report) :
    (clusterIds (buildClusters rs)).Perm (rs.map Report.id) := by
  have := clusterIds_foldl rs []
  simpa [clusterIds] using this

theorem countP_mem_of_sum_count_zero (a : String) (L : List (List String))
    (h : (L.map (List.count a)).sum = 0) :
    L.countP (fun l => decide (a ∈ l)) = 0 := by
  induction L with
  | nil => simp
  | cons l L ih =>
    simp only [List.map_cons, List.sum_cons] at h
    have h1 : List.count a l = 0 := by omega
    have h2 : (L.map (List.count a)).sum = 0 := by omega
    have hnot : a ∉ l := List.count_eq_zero.mp h1
    rw [List.countP_cons_of_neg _ _ (by simpa using hnot)]
    exact ih h2

theorem countP_mem_of_sum_count_one (a : String) (L : List (List String))
    (h : (L.map (List.count a)).sum = 1) :
    L.countP (fun l => decide (a ∈ l)) = 1 := by
  induction L with
  | nil => simp at h
  | cons l L ih =>
    simp only [List.map_cons, List.sum_cons] at h
    by_cases hc : List.count a l = 0
    · have hnot : a ∉ l := List.count_eq_zero.mp hc
      rw [List.countP_cons_of_neg _ _ (by simpa using hnot)]
      exact ih (by omega)
    · have hc1 : List.count a l = 1 := by omega
      have hrest : (L.map (List.count a)).sum = 0 := by omega
      have hmem : a ∈ l := by
        by_contra hn
        exact hc (List.count_eq_zero.mpr hn)
      rw [List.countP_cons_of_pos _ _ (by simpa using hmem)]
      rw [countP_mem_of_sum_count_zero a L hrest]

/-- Claim C10: when the recent reports carry pairwise distinct ids, the grid
cells partition them: the member counts of all cells sum to the number of
reports in the window, and the id of each such report appears in the member
list of exactly one cell. -/
theorem clusters_partition (reports : List Report) (now time_range : ℚ)
    (hnodup : ((recentReports reports now time_range).map Report.id).Nodup) :
    ((buildClusters (recentReports reports now time_range)).map
        (fun kc => kc.2.reports.length)).sum =
      (recentReports reports now time_range).length ∧
    ∀ r ∈ recentReports reports now time_range,
      (buildClusters (recentReports reports now time_range)).countP
          (fun kc => decide (r.id ∈ kc.2.reports)) = 1 := by
  have hperm := clusterIds_buildClusters (recentReports reports now time_range)
  constructor
  · have h1 := hperm.length_eq
    rw [clusterIds, List.length_flatten, List.map_map, List.length_map] at h1
    simpa [Function.comp] using h1
  · intro r hr
    have hid : r.id ∈ (recentReports reports now time_range).map Report.id :=
      List.mem_map_of_mem Report.id hr
    have hcount : List.count r.id
        (clusterIds (buildClusters (recentReports reports now time_range))) = 1 := by
      rw [hperm.count_eq]
      exact List.count_eq_one_of_mem hnodup hid
    rw [clusterIds, List.count_flatten, List.map_map] at hcount
    have := countP_mem_of_sum_count_one r.id
      ((buildClusters (recentReports reports now time_range)).map (fun kc => kc.2.reports))
      (by simpa [Function.comp] using hcount)
    rw [List.countP_map] at this
    simpa [Function.comp] using this

theorem recent_sample_ids_nodup :
    ((recentReports [rSample] 0 24).map Report.id).Nodup := by
  norm_num [recentReports, rSample, List.filter_cons]

theorem clusters_partition_witness :
    ((buildClusters (recentReports [rSample] 0 24)).map
        (fun kc => kc.2.reports.length)).sum =
      (recentReports [rSample] 0 24).length :=
  (clusters_partition [rSample] 0 24 recent_sample_ids_nodup).1

/-! ### Hotspot threshold, emptiness and threat level (claim C6) -/

theorem finalizeHotspots_length (m : ℕ) (cs : List ((ℚ × ℚ) × Cluster)) :
    (finalizeHotspots m cs).length =
      cs.countP (fun kc => decide (m ≤ kc.2.reports.length)) := by
  unfold finalizeHotspots
  rw [List.length_filterMap_eq_countP]
  apply List.countP_congr
  intro kc _
  by_cases hm : m ≤ kc.2.reports.length
  · simp [hm]
  · simp [hm]

/-- Claim C6 (amended): a cell with exactly `min_reports - 1` members emits no
hotspot while one with exactly `min_reports` members emits exactly one; empty
input (or every cell under the threshold) yields an empty list, not an error;
and every emitted hotspot carries `average_severity` rounded to two decimals
while its threat level is "high" exactly when the UNROUNDED average
`total_severity / report_count` is at least 3.5, and "medium" otherwise. -/
theorem hotspot_threshold_and_threat (reports : List Report) (now time_range : ℚ)
    (m : ℕ) :
    ((get_hazard_hotspots reports now time_range m).length =
      (buildClusters (recentReports reports now time_range)).countP
        (fun kc => decide (m ≤ kc.2.reports.length))) ∧
    (recentReports reports now time_range = [] →
      get_hazard_hotspots reports now time_range m = []) ∧
    ((buildClusters (recentReports reports now time_range)).countP
        (fun kc => decide (m ≤ kc.2.reports.length)) = 0 →
      get_hazard_hotspots reports now time_range m = []) ∧
    (∀ kc : (ℚ × ℚ) × Cluster,
      (kc.2.reports.length = m - 1 → 1 ≤ m → finalizeHotspots m [kc] = []) ∧
      (kc.2.reports.length = m → (finalizeHotspots m [kc]).length = 1)) ∧
    (∀ hsp ∈ get_hazard_hotspots reports now time_range m,
      ∃ kc ∈ buildClusters (recentReports reports now time_range),
        m ≤ kc.2.reports.length ∧
        hsp.report_count = kc.2.reports.length ∧
        hsp.average_severity =
          round2 ((kc.2.total_severity : ℚ) / kc.2.reports.length) ∧
        hsp.threat_level =
          (if (3.5 : ℚ) ≤ (kc.2.total_severity : ℚ) / kc.2.reports.length
            then "high" else "medium")) := by
  have hlen : (get_hazard_hotspots reports now time_range m).length =
      (buildClusters (recentReports reports now time_range)).countP
        (fun kc => decide (m ≤ kc.2.reports.length)) := by
    unfold get_hazard_hotspots
    rw [(List.mergeSort_perm _ hotspotLE).length_eq]
    exact finalizeHotspots_length m _
  refine ⟨hlen, ?_, ?_, ?_, ?_⟩
  · intro hempty
    unfold get_hazard_hotspots
    rw [hempty]
    simp [buildClusters, finalizeHotspots]
  · intro hzero
    have := hlen.trans hzero
    exact List.length_eq_zero.mp this
  · intro kc
    constructor
    · intro hcard hm
      unfold finalizeHotspots
      rw [List.filterMap_cons]
      rw [if_neg (by omega)]
      rfl
    · intro hcard
      unfold finalizeHotspots
      rw [List.filterMap_cons]
      rw [if_pos (by omega)]
      rfl
  · intro hsp hmem
    unfold get_hazard_hotspots at hmem
    have hperm := List.mergeSort_perm
      (finalizeHotspots m (buildClusters (recentReports reports now time_range)))
      hotspotLE
    have hmem2 := hperm.mem_iff.mp hmem
    rw [finalizeHotspots, List.mem_filterMap] at hmem2
    obtain ⟨kc, hkc, hf⟩ := hmem2
    by_cases hm : m ≤ kc.2.reports.length
    · rw [if_pos hm] at hf
      injection hf with hf
      have hne : kc.2.reports ≠ [] :=
        foldl_clusters_nonempty (recentReports reports now time_range) [] (by simp)
          kc (by simpa [buildClusters] using hkc)
      rw [if_pos hne] at hf
      refine ⟨kc, hkc, hm, ?_, ?_, ?_⟩ <;> rw [← hf]
    · rw [if_neg hm] at hf
      exact absurd hf (by simp)

theorem hotspot_threshold_and_threat_witness :
    finalizeHotspots 3 [((0, 0), (⟨0, 0, ["x", "y"], 5, ["t"]⟩ : Cluster))] = [] ∧
    (finalizeHotspots 3 [((0, 0), (⟨0, 0, ["x", "y", "z"], 5, ["t"]⟩ : Cluster))]).length = 1 :=
  ⟨((hotspot_threshold_and_threat [] 0 24 3).2.2.2.1
      ((0, 0), ⟨0, 0, ["x", "y"], 5, ["t"]⟩)).1 (by decide) (by decide),
    ((hotspot_threshold_and_threat [] 0 24 3).2.2.2.1
      ((0, 0), ⟨0, 0, ["x", "y", "z"], 5, ["t"]⟩)).2 (by decide)⟩

theorem recent_bigReports : recentReports bigReports 0 24 = bigReports := by
  unfold recentReports
  apply List.filter_eq_self.mpr
  intro r hr
  rcases List.mem_append.mp hr with h | h
  · obtain ⟨-, rfl⟩ := List.mem_replicate.mp h
    norm_num [rSev4]
  · obtain ⟨-, rfl⟩ := List.mem_replicate.mp h
    norm_num [rSev3]

/-- Folding reports that all land in the grid cell `k` of a singleton cell
map, when their hazard types are already recorded, just appends their ids and
accumulates their severities. -/
theorem foldl_single_cell (k : ℚ × ℚ) (rs : List Report) :
    ∀ c : Cluster,
      (∀ r ∈ rs, gridKey r.latitude r.longitude = k) →
      (∀ r ∈ rs, r.hazard_type ∈ c.hazard_types) →
      rs.foldl (fun acc r => updateCluster r acc) [(k, c)] =
        [(k, ⟨c.center_lat, c.center_lon, c.reports ++ rs.map Report.id,
              c.total_severity + (rs.map Report.severity).sum, c.hazard_types⟩)] := by
  induction rs with
  | nil => intro c _ _; simp
  | cons r rs ih =>
    intro c hk ht
    simp only [List.foldl_cons]
    have hk0 := hk r (List.mem_cons_self _ _)
    have ht0 := ht r (List.mem_cons_self _ _)
    have hstep : updateCluster r [(k, c)] =
        [(k, ⟨c.center_lat, c.center_lon, c.reports ++ [r.id],
              c.total_severity + r.severity, c.hazard_types⟩)] := by
      simp [updateCluster, hk0, setAdd, ht0]
    rw [hstep,
      ih _ (fun r2 h2 => hk r2 (List.mem_cons_of_mem _ h2))
        (fun r2 h2 => by simpa using ht r2 (List.mem_cons_of_mem _ h2))]
    simp [List.append_assoc, add_assoc]

theorem gridKey_chennai : gridKey 13.08 80.27 = (13.1, 80.3) := by
  norm_num [gridKey, grid_size, rhe, Prod.mk.injEq]

theorem buildClusters_bigReports :
    buildClusters bigReports =
      [((13.1, 80.3),
        ⟨13.1, 80.3, "p" :: (List.replicate 49 "p" ++ List.replicate 51 "q"),
          353, ["cyclone"]⟩)] := by
  have hrepl : bigReports = rSev4 :: (List.replicate 49 rSev4 ++ List.replicate 51 rSev3) := by
    rfl
  unfold buildClusters
  rw [hrepl]
  rw [List.foldl_cons]
  have hfirst : updateCluster rSev4 [] =
      [((13.1, 80.3), ⟨13.1, 80.3, ["p"], 4, ["cyclone"]⟩)] := by
    simp [updateCluster, rSev4, gridKey_chennai]
  rw [hfirst]
  rw [foldl_single_cell (13.1, 80.3) _ ⟨13.1, 80.3, ["p"], 4, ["cyclone"]⟩
    (by
      intro r hr
      rcases List.mem_append.mp hr with h | h
      · obtain ⟨-, rfl⟩ := List.mem_replicate.mp h
        exact gridKey_chennai
      · obtain ⟨-, rfl⟩ := List.mem_replicate.mp h
        exact gridKey_chennai)
    (by
      intro r hr
      rcases List.mem_append.mp hr with h | h
      · obtain ⟨-, rfl⟩ := List.mem_replicate.mp h
        simp [rSev4]
      · obtain ⟨-, rfl⟩ := List.mem_replicate.mp h
        simp [rSev3])]
  simp [rSev4, rSev3, List.map_replicate, List.sum_replicate, List.sum_append]

set_option maxRecDepth 8000 in
/-- Claim C6 counterexample: for the 101 co-located reports of `bigReports`
(average severity 353/101 ≈ 3.495), the emitted hotspot has
`average_severity = 3.5` (the rounded field) which is at least 3.5, yet its
threat level is "medium": the code classifies by the unrounded average, not
by the rounded `average_severity` the claim refers to. -/
theorem hotspot_threat_level_counterexample :
    get_hazard_hotspots bigReports 0 24 3 =
      [⟨13.1, 80.3, 101, 3.5, ["cyclone"], "medium"⟩] ∧
    (3.5 : ℚ) ≤ 3.5 ∧ ("medium" : String) ≠ "high" := by
  refine ⟨?_, by norm_num, by decide⟩
  unfold get_hazard_hotspots
  rw [recent_bigReports, buildClusters_bigReports]
  have hfin : finalizeHotspots 3
      [((13.1, 80.3),
        ⟨13.1, 80.3, "p" :: (List.replicate 49 "p" ++ List.replicate 51 "q"),
          353, ["cyclone"]⟩)] =
      [⟨13.1, 80.3, 101, 3.5, ["cyclone"], "medium"⟩] := by
    have hlen : ("p" :: (List.replicate 49 "p" ++ List.replicate 51 "q")).length = 101 := by
      simp
    have hne2 : ¬("p" :: (List.replicate 49 "p" ++ List.replicate 51 "q") = []) := by
      simp
    norm_num [finalizeHotspots, List.filterMap_cons, hlen, hne2, round2, rhe,
      Hotspot.mk.injEq]
    norm_num [Int.fract]
  rw [hfin]
  simp
